import Mathlib

/-!
Verification of the tool-calling completion orchestrator of the
`agente-ia-contabilidade` backend.

Shallow embedding of:
  * `app/config.py`              (`Settings`)
  * `app/services/tools.py`      (the four tool functions, `AVAILABLE_TOOLS`,
                                  `FUNCTION_MAP`)
  * `app/services/openai_services.py`
                                 (`OpenAIService._build_messages`,
                                  `OpenAIService.get_completion`,
                                  `OpenAIService.get_streaming_completion`)

Modelling conventions:
  * Python `float` values are embedded as `ℚ`.  Every numeric constant in the
    source (tax tables, bracket bounds, rates) is an exact decimal, so the
    embedding is exact; no claim below depends on binary floating-point
    rounding.
  * Python `int` values are embedded as `Int` (token counts as `Nat`).
  * Python dicts returned by tools are embedded as `JVal` objects
    (association lists preserving insertion order, as Python dicts do).
  * `json.loads` on a tool-call `arguments` string is a stdlib collaborator;
    it is modelled by `JStr` / `json_loads`: an arguments string either parses
    to a keyword-argument record (`JStr.valid`) or raises (`JStr.malformed`).
  * `json.dumps(result)` in a tool-role message is modelled by carrying the
    result value itself in the message (`Msg.tool`); `dumps` is injective on
    the values produced here, so nothing is lost.
  * `datetime.now()` is an ambient input, passed explicitly as a `Clock`.
  * The provider (`self.client.chat.completions.create`) is an external
    collaborator; a call either returns a `Response` or raises.  A stubbed
    provider is a list of such outcomes consumed in call order, and the
    orchestrator also returns the trace of `Request`s it issued, so that
    "a second provider call was (not) issued" is observable.
  * Python raising an exception is modelled with `Except String`; the
    orchestrator's `except Exception` wrapper is `pyWrap`.
-/

/-- Embedding of `app/config.py` `Settings` (the fields the core reads). -/
structure Settings where
  OPENAI_API_KEY : String
  OPENAI_MODEL : String := "gpt-4o-mini"
  MAX_TOKENS : Nat := 1500
  TEMPERATURE : ℚ := 0.7
  SYSTEM_PROMPT : String := "Você é um assistente especializado em contabilidade brasileira."

/-- Ambient current date, standing for `datetime.now()`. -/
structure Clock where
  mm_aaaa : String
  month : Int
  year : Int

/-- JSON-like values: the shape of the Python dicts built and returned by the
tools.  Objects are ordered association lists, like Python dicts. -/
inductive JVal where
  | str (s : String)
  | num (q : ℚ)
  | bool (b : Bool)
  | null
  | arr (xs : List JVal)
  | obj (fields : List (String × JVal))

/-- Lookup of a key in a `JVal` object (Python `d["k"]` / `"k" in d`). -/
def jLookup (v : JVal) (key : String) : Option JVal :=
  match v with
  | .obj fields => fields.lookup key
  | _ => none

/-- Two-digit zero-padded rendering of `n % 100`-sized numbers. -/
def pad2 (n : Nat) : String :=
  if n < 10 then "0" ++ toString n else toString n

/-- Insert a comma after every third character of a reversed digit list
(thousands grouping, working from the least significant digit). -/
def commaRev : List Char → List Char
  | a :: b :: c :: d :: rest => a :: b :: c :: ',' :: commaRev (d :: rest)
  | l => l

/-- Thousands grouping of a decimal digit string (`"5940"` to `"5,940"`). -/
def addThousands (s : String) : String :=
  String.mk (commaRev s.data.reverse).reverse

/-- Embedding of the Python format `f"{x:,.2f}"`: fixed two decimals with
thousands separators. -/
def fmtComma2 (q : ℚ) : String :=
  let cents : Int := ⌊q * 100 + 1 / 2⌋
  let n := cents.natAbs
  (if cents < 0 then "-" else "")
    ++ addThousands (toString (n / 100)) ++ "." ++ pad2 (n % 100)

/-- Embedding of the Python format `f"R$ {x:,.2f}"`. -/
def fmtMoeda (q : ℚ) : String := "R$ " ++ fmtComma2 q

/-- Embedding of the Python format `f"{x:.2f}"` (no thousands separator). -/
def fmtFixed2 (q : ℚ) : String :=
  let cents : Int := ⌊q * 100 + 1 / 2⌋
  let n := cents.natAbs
  (if cents < 0 then "-" else "") ++ toString (n / 100) ++ "." ++ pad2 (n % 100)

/-- Embedding of Python `str(x)` for the one-decimal float constants stored in
the tax tables (e.g. `str(7.3) = "7.3"`, `str(4.0) = "4.0"`). -/
def fmtFloat1 (q : ℚ) : String :=
  let t := (⌊q * 10⌋).natAbs
  toString (t / 10) ++ "." ++ toString (t % 10)

/-- One bracket (`faixa`) of a Simples Nacional table: upper revenue bound,
nominal rate (percent) and deduction. -/
structure Faixa where
  ate : ℚ
  aliquota : ℚ
  deducao : ℚ

/-- One annex table: display name plus its six brackets. -/
structure Tabela where
  nome : String
  faixas : List Faixa

/-- Embedding of the `tabelas` dict literal inside
`calcular_das_simples_nacional` (tools.py lines 36-92). -/
def tabelas (anexo : Int) : Option Tabela :=
  if anexo = 1 then
    some { nome := "Anexo I - Comércio",
           faixas := [⟨180000, 4.0, 0⟩, ⟨360000, 7.3, 5940⟩, ⟨720000, 9.5, 13860⟩,
                      ⟨1800000, 10.7, 22500⟩, ⟨3600000, 14.3, 87300⟩, ⟨4800000, 19.0, 378000⟩] }
  else if anexo = 2 then
    some { nome := "Anexo II - Indústria",
           faixas := [⟨180000, 4.5, 0⟩, ⟨360000, 7.8, 5940⟩, ⟨720000, 10.0, 13860⟩,
                      ⟨1800000, 11.2, 22500⟩, ⟨3600000, 14.7, 85500⟩, ⟨4800000, 30.0, 720000⟩] }
  else if anexo = 3 then
    some { nome := "Anexo III - Serviços",
           faixas := [⟨180000, 6.0, 0⟩, ⟨360000, 11.2, 9360⟩, ⟨720000, 13.5, 17640⟩,
                      ⟨1800000, 16.0, 35640⟩, ⟨3600000, 21.0, 125640⟩, ⟨4800000, 33.0, 648000⟩] }
  else if anexo = 4 then
    some { nome := "Anexo IV - Serviços",
           faixas := [⟨180000, 4.5, 0⟩, ⟨360000, 9.0, 8100⟩, ⟨720000, 10.2, 12420⟩,
                      ⟨1800000, 14.0, 39780⟩, ⟨3600000, 22.0, 183780⟩, ⟨4800000, 33.0, 828000⟩] }
  else if anexo = 5 then
    some { nome := "Anexo V - Serviços",
           faixas := [⟨180000, 15.5, 0⟩, ⟨360000, 18.0, 4500⟩, ⟨720000, 19.5, 9900⟩,
                      ⟨1800000, 20.5, 17100⟩, ⟨3600000, 23.0, 62100⟩, ⟨4800000, 30.5, 540000⟩] }
  else none

/-- Embedding of `calcular_das_simples_nacional` (tools.py lines 14-137).
Returns `Except` because the Python body divides by
`receita_bruta_12_meses`, which raises `ZeroDivisionError` when it is zero;
every other path returns a dict. -/
def calcular_das_simples_nacional (clock : Clock) (receita_bruta_12_meses : ℚ)
    (anexo : Int) (mes_referencia : Option String) : Except String JVal :=
  let mes_ref := mes_referencia.getD clock.mm_aaaa
  match tabelas anexo with
  | none =>
      .ok (.obj [("erro", .str s!"Anexo {anexo} inválido. Use 1, 2, 3, 4 ou 5."),
                 ("anexos_disponiveis", .arr [.num 1, .num 2, .num 3, .num 4, .num 5])])
  | some tabela =>
    if receita_bruta_12_meses > 4800000 then
      .ok (.obj [("erro", .str "Receita bruta excede o limite do Simples Nacional (R$ 4.800.000,00)"),
                 ("sugestao", .str "Empresa deve migrar para Lucro Presumido ou Lucro Real")])
    else
      match tabela.faixas.find? (fun faixa => receita_bruta_12_meses ≤ faixa.ate) with
      | none => .ok (.obj [("erro", .str "Não foi possível determinar a faixa")])
      | some faixa_aplicavel =>
        if receita_bruta_12_meses = 0 then
          .error "float division by zero"
        else
          let aliquota_efetiva :=
            ((receita_bruta_12_meses * faixa_aplicavel.aliquota / 100) - faixa_aplicavel.deducao)
              / receita_bruta_12_meses * 100
          let receita_mensal_media := receita_bruta_12_meses / 12
          let valor_das := receita_mensal_media * aliquota_efetiva / 100
          .ok (.obj [
            ("anexo", .num anexo),
            ("nome_anexo", .str tabela.nome),
            ("mes_referencia", .str mes_ref),
            ("receita_bruta_12_meses", .str (fmtMoeda receita_bruta_12_meses)),
            ("receita_mensal_media", .str (fmtMoeda receita_mensal_media)),
            ("aliquota_nominal", .str (fmtFloat1 faixa_aplicavel.aliquota ++ "%")),
            ("aliquota_efetiva", .str (fmtFixed2 aliquota_efetiva ++ "%")),
            ("valor_deducao", .str (fmtMoeda faixa_aplicavel.deducao)),
            ("valor_das_mensal", .str (fmtMoeda valor_das)),
            ("vencimento", .str "Dia 20 do mês seguinte ao de referência"),
            ("observacao", .str "Valores aproximados. Consulte um contador para cálculo exato.")])

/-- Embedding of `calcular_ferias` (tools.py lines 140-224). -/
def calcular_ferias (salario_bruto : ℚ) (dias_ferias : Int) (vende_10_dias : Bool) : JVal :=
  if dias_ferias < 1 ∨ dias_ferias > 30 then
    .obj [("erro", .str "Dias de férias deve estar entre 1 e 30")]
  else if vende_10_dias ∧ dias_ferias < 30 then
    .obj [("erro", .str "Para vender 10 dias, é necessário ter direito a 30 dias de férias")]
  else
    let dias_gozo : Int := if vende_10_dias then 20 else dias_ferias
    let dias_vendidos : Int := if vende_10_dias then 10 else 0
    let valor_ferias := (salario_bruto / 30) * dias_gozo
    let terco_constitucional := valor_ferias / 3
    let valor_abono := if vende_10_dias then (salario_bruto / 30) * dias_vendidos else 0
    let terco_abono := if vende_10_dias then valor_abono / 3 else 0
    let total_bruto := valor_ferias + terco_constitucional + valor_abono + terco_abono
    let inss :=
      if salario_bruto ≤ 1412.00 then salario_bruto * 0.075
      else if salario_bruto ≤ 2666.68 then salario_bruto * 0.09
      else if salario_bruto ≤ 4000.03 then salario_bruto * 0.12
      else salario_bruto * 0.14
    let base_ir := total_bruto - inss
    let irrf :=
      if base_ir > 2259.20 then
        if base_ir ≤ 2826.65 then base_ir * 0.075 - 169.44
        else if base_ir ≤ 3751.05 then base_ir * 0.15 - 381.44
        else if base_ir ≤ 4664.68 then base_ir * 0.225 - 662.77
        else base_ir * 0.275 - 896.00
      else 0
    let total_descontos := inss + irrf
    let total_liquido := total_bruto - total_descontos
    .obj [
      ("salario_bruto", .str (fmtMoeda salario_bruto)),
      ("dias_ferias_total", .num dias_ferias),
      ("dias_gozo", .num dias_gozo),
      ("dias_vendidos", .num dias_vendidos),
      ("calculo", .obj [
        ("valor_ferias", .str (fmtMoeda valor_ferias)),
        ("terco_constitucional", .str (fmtMoeda terco_constitucional)),
        ("abono_pecuniario", .str (fmtMoeda valor_abono)),
        ("terco_abono", .str (fmtMoeda terco_abono)),
        ("total_bruto", .str (fmtMoeda total_bruto))]),
      ("descontos", .obj [
        ("inss", .str (fmtMoeda inss)),
        ("irrf", .str (fmtMoeda irrf)),
        ("total_descontos", .str (fmtMoeda total_descontos))]),
      ("total_liquido", .str (fmtMoeda total_liquido)),
      ("observacao", .str "Cálculo aproximado. Valores exatos dependem de outras variáveis.")]

/-- Month names list from `obter_obrigacoes_mes` (tools.py lines 251-254). -/
def meses_nome : List String :=
  ["Janeiro", "Fevereiro", "Março", "Abril", "Maio", "Junho",
   "Julho", "Agosto", "Setembro", "Outubro", "Novembro", "Dezembro"]

/-- The six recurring monthly obligations (tools.py lines 257-300). -/
def obrigacoes_mensais : List JVal :=
  [.obj [("nome", .str "DAS - Simples Nacional"), ("prazo", .str "Dia 20"),
         ("descricao", .str "Documento de Arrecadação do Simples Nacional"),
         ("aplica_se", .str "Empresas optantes pelo Simples Nacional"),
         ("prioridade", .str "Alta")],
   .obj [("nome", .str "DARF - Tributos Federais"), ("prazo", .str "Dia 20"),
         ("descricao", .str "Pagamento de impostos federais (IRPJ, CSLL, PIS, COFINS)"),
         ("aplica_se", .str "Lucro Real e Lucro Presumido"),
         ("prioridade", .str "Alta")],
   .obj [("nome", .str "GPS - INSS"), ("prazo", .str "Dia 20"),
         ("descricao", .str "Guia da Previdência Social"),
         ("aplica_se", .str "Todas as empresas com funcionários"),
         ("prioridade", .str "Alta")],
   .obj [("nome", .str "FGTS"), ("prazo", .str "Dia 7"),
         ("descricao", .str "Fundo de Garantia do Tempo de Serviço"),
         ("aplica_se", .str "Todas as empresas com funcionários"),
         ("prioridade", .str "Alta")],
   .obj [("nome", .str "SEFIP/GFIP"), ("prazo", .str "Dia 7"),
         ("descricao", .str "Sistema Empresa de Recolhimento do FGTS"),
         ("aplica_se", .str "Empresas com funcionários"),
         ("prioridade", .str "Média")],
   .obj [("nome", .str "DCTF Web"), ("prazo", .str "Dia 15"),
         ("descricao", .str "Declaração de Débitos e Créditos Tributários Federais"),
         ("aplica_se", .str "Lucro Real e Presumido"),
         ("prioridade", .str "Média")]]

/-- The per-month annual obligations dict (tools.py lines 303-324): keys 1-5. -/
def obrigacoes_anuais (mes : Int) : Option (List JVal) :=
  match mes with
  | 1 => some [.obj [("nome", .str "13º Salário (2ª Parcela)"),
                     ("prazo", .str "Até 20/12 (ano anterior)"),
                     ("descricao", .str "Segunda parcela do 13º salário")]]
  | 2 => some [.obj [("nome", .str "RAIS"),
                     ("prazo", .str "Até o último dia útil de março"),
                     ("descricao", .str "Relação Anual de Informações Sociais")]]
  | 3 => some [.obj [("nome", .str "DIRF"),
                     ("prazo", .str "Último dia útil de fevereiro"),
                     ("descricao", .str "Declaração do Imposto de Renda Retido na Fonte")]]
  | 4 => some [.obj [("nome", .str "IRPF"),
                     ("prazo", .str "Até 31/05"),
                     ("descricao", .str "Declaração de Imposto de Renda Pessoa Física")]]
  | 5 => some [.obj [("nome", .str "DEFIS"),
                     ("prazo", .str "Até 31/03"),
                     ("descricao", .str "Declaração de Informações Socioeconômicas e Fiscais (Simples)")]]
  | _ => none

/-- Embedding of `obter_obrigacoes_mes` (tools.py lines 231-338). -/
def obter_obrigacoes_mes (clock : Clock) (mes0 : Option Int) (ano0 : Option Int) : JVal :=
  let mes := mes0.getD clock.month
  let ano := ano0.getD clock.year
  if mes < 1 ∨ mes > 12 then
    .obj [("erro", .str "Mês deve estar entre 1 e 12")]
  else
    let obrigacoes := obrigacoes_mensais ++ ((obrigacoes_anuais mes).getD [])
    .obj [
      ("mes", .num mes),
      ("mes_nome", .str (meses_nome.getD (mes - 1).toNat "")),
      ("ano", .num ano),
      ("total_obrigacoes", .num obrigacoes.length),
      ("obrigacoes", .arr obrigacoes),
      ("observacao", .str "Prazos podem variar se caírem em finais de semana ou feriados.")]

/-- Embedding of `verificar_tipo_regime_tributario` (tools.py lines 345-431). -/
def verificar_tipo_regime_tributario (receita_anual : ℚ) (atividade : String) : JVal :=
  let simples : List JVal :=
    if receita_anual ≤ 4800000 then
      [.obj [("regime", .str "Simples Nacional"), ("viavel", .bool true),
             ("aliquota_estimada", .str "4% a 33% (dependendo do anexo e faixa)"),
             ("vantagens", .arr [.str "Simplificação de obrigações",
                                 .str "Unificação de tributos em guia única",
                                 .str "Menor carga tributária para pequenas empresas"]),
             ("desvantagens", .arr [.str "Limite de receita (R$ 4,8 milhões/ano)",
                                    .str "Restrições de atividades",
                                    .str "Não permite alguns tipos de créditos tributários"])]]
    else []
  let presumido : List JVal :=
    if receita_anual ≤ 78000000 then
      [.obj [("regime", .str "Lucro Presumido"), ("viavel", .bool true),
             ("aliquota_estimada", .str "13,33% a 16,33% (aproximado)"),
             ("vantagens", .arr [.str "Menor complexidade que Lucro Real",
                                 .str "Tributação sobre lucro presumido, não real",
                                 .str "Adequado para empresas com margens altas"]),
             ("desvantagens", .arr [.str "Não permite compensação de prejuízos",
                                    .str "Limite de receita (R$ 78 milhões/ano)",
                                    .str "Pode ser desvantajoso para margens baixas"])]]
    else []
  let real : List JVal :=
    [.obj [("regime", .str "Lucro Real"), ("viavel", .bool true),
           ("aliquota_estimada", .str "Variável (sobre lucro efetivo)"),
           ("vantagens", .arr [.str "Tributa apenas o lucro real",
                               .str "Permite compensação de prejuízos",
                               .str "Obrigatório para receitas acima de R$ 78 milhões"]),
           ("desvantagens", .arr [.str "Maior complexidade contábil",
                                  .str "Mais obrigações acessórias",
                                  .str "Custos contábeis maiores"])]]
  let sugestao :=
    if receita_anual ≤ 360000 then
      "Simples Nacional (melhor custo-benefício para pequenas empresas)"
    else if receita_anual ≤ 4800000 then
      "Avaliar Simples vs Lucro Presumido (depende da margem de lucro)"
    else if receita_anual ≤ 78000000 then
      "Lucro Presumido (se margens altas) ou Lucro Real"
    else
      "Lucro Real (obrigatório)"
  .obj [
    ("receita_anual", .str (fmtMoeda receita_anual)),
    ("atividade", .str atividade),
    ("regimes_disponiveis", .arr (simples ++ presumido ++ real)),
    ("sugestao", .str sugestao),
    ("observacao", .str "Consultoria com contador é essencial para decisão final.")]

/-- Parsed keyword arguments of a tool call: the four keyword-argument shapes
that bind to the registered functions when splatted with `**args`. -/
inductive ToolArgs where
  | das (receita_bruta_12_meses : ℚ) (anexo : Int) (mes_referencia : Option String)
  | ferias (salario_bruto : ℚ) (dias_ferias : Int) (vende_10_dias : Bool)
  | obrigacoes (mes : Option Int) (ano : Option Int)
  | regime (receita_anual : ℚ) (atividade : String)
deriving DecidableEq

/-- Model of the JSON text in `tool_call.function.arguments`: it either parses
under `json.loads` to a keyword-argument record, or it is malformed text. -/
inductive JStr where
  | valid (v : ToolArgs)
  | malformed (raw : String)
deriving DecidableEq

/-- Message produced by `json.loads` when it rejects malformed text. -/
def json_decode_error (raw : String) : String :=
  s!"Expecting value: {raw}"

/-- Embedding of `json.loads(tool_call.function.arguments)`
(openai_services.py line 80). -/
def json_loads : JStr → Except String ToolArgs
  | .valid v => .ok v
  | .malformed raw => .error (json_decode_error raw)

/-- Embedding of `FUNCTION_MAP` (tools.py lines 544-549): name-to-callable
lookup.  Applying an entry to arguments of the wrong shape models Python's
`TypeError` on keyword splatting; `calcular_das_simples_nacional` can also
raise on a zero revenue (division by zero). -/
def FUNCTION_MAP (clock : Clock) : String → Option (ToolArgs → Except String JVal)
  | "calcular_das_simples_nacional" =>
      some fun a => match a with
        | .das receita anexo mref => calcular_das_simples_nacional clock receita anexo mref
        | _ => .error "TypeError: unexpected keyword arguments"
  | "calcular_ferias" =>
      some fun a => match a with
        | .ferias salario dias vende => .ok (calcular_ferias salario dias vende)
        | _ => .error "TypeError: unexpected keyword arguments"
  | "obter_obrigacoes_mes" =>
      some fun a => match a with
        | .obrigacoes mes ano => .ok (obter_obrigacoes_mes clock mes ano)
        | _ => .error "TypeError: unexpected keyword arguments"
  | "verificar_tipo_regime_tributario" =>
      some fun a => match a with
        | .regime receita atividade => .ok (verificar_tipo_regime_tributario receita atividade)
        | _ => .error "TypeError: unexpected keyword arguments"
  | _ => none

/-- Embedding of the `AVAILABLE_TOOLS` schema list (tools.py lines 438-541). -/
def AVAILABLE_TOOLS : List JVal :=
  [.obj [("type", .str "function"),
         ("function", .obj [
           ("name", .str "calcular_das_simples_nacional"),
           ("description", .str "Calcula o valor da DAS (Documento de Arrecadação do Simples Nacional) baseado na receita bruta dos últimos 12 meses e no anexo da empresa"),
           ("parameters", .obj [
             ("type", .str "object"),
             ("properties", .obj [
               ("receita_bruta_12_meses", .obj [("type", .str "number"),
                 ("description", .str "Receita bruta acumulada dos últimos 12 meses em reais (R$)")]),
               ("anexo", .obj [("type", .str "integer"),
                 ("description", .str "Anexo do Simples Nacional: 1=Comércio, 2=Indústria, 3=Serviços, 4=Serviços, 5=Serviços com fator R"),
                 ("enum", .arr [.num 1, .num 2, .num 3, .num 4, .num 5])]),
               ("mes_referencia", .obj [("type", .str "string"),
                 ("description", .str "Mês de referência no formato MM/AAAA (opcional)"),
                 ("nullable", .bool true)])]),
             ("required", .arr [.str "receita_bruta_12_meses", .str "anexo"])])])],
   .obj [("type", .str "function"),
         ("function", .obj [
           ("name", .str "calcular_ferias"),
           ("description", .str "Calcula o valor de férias de um colaborador, incluindo 1/3 constitucional e abono pecuniário (venda de férias)"),
           ("parameters", .obj [
             ("type", .str "object"),
             ("properties", .obj [
               ("salario_bruto", .obj [("type", .str "number"),
                 ("description", .str "Salário bruto mensal do colaborador em reais (R$)")]),
               ("dias_ferias", .obj [("type", .str "integer"),
                 ("description", .str "Quantidade de dias de férias (padrão: 30 dias)"),
                 ("default", .num 30)]),
               ("vende_10_dias", .obj [("type", .str "boolean"),
                 ("description", .str "Se o colaborador vai vender 10 dias de férias (abono pecuniário)"),
                 ("default", .bool false)])]),
             ("required", .arr [.str "salario_bruto"])])])],
   .obj [("type", .str "function"),
         ("function", .obj [
           ("name", .str "obter_obrigacoes_mes"),
           ("description", .str "Retorna a lista de obrigações fiscais e trabalhistas de um mês específico, incluindo prazos e descrições"),
           ("parameters", .obj [
             ("type", .str "object"),
             ("properties", .obj [
               ("mes", .obj [("type", .str "integer"),
                 ("description", .str "Número do mês (1-12). Se não informado, usa o mês atual"),
                 ("minimum", .num 1), ("maximum", .num 12), ("nullable", .bool true)]),
               ("ano", .obj [("type", .str "integer"),
                 ("description", .str "Ano de referência. Se não informado, usa o ano atual"),
                 ("nullable", .bool true)])]),
             ("required", .arr [])])])],
   .obj [("type", .str "function"),
         ("function", .obj [
           ("name", .str "verificar_tipo_regime_tributario"),
           ("description", .str "Analisa e sugere o melhor regime tributário (Simples Nacional, Lucro Presumido ou Lucro Real) baseado na receita anual da empresa"),
           ("parameters", .obj [
             ("type", .str "object"),
             ("properties", .obj [
               ("receita_anual", .obj [("type", .str "number"),
                 ("description", .str "Receita bruta anual estimada ou realizada em reais (R$)")]),
               ("atividade", .obj [("type", .str "string"),
                 ("description", .str "Tipo de atividade da empresa"),
                 ("enum", .arr [.str "comercio", .str "industria", .str "servicos"]),
                 ("default", .str "comercio")])]),
             ("required", .arr [.str "receita_anual"])])])]]

/-- One prior conversation turn, as supplied by the caller
(`conv.user_message` / `conv.assistant_message`). -/
structure ConversationTurn where
  user_message : String
  assistant_message : String

/-- Inner `function` field of a provider tool call
(`tool_call.function.name` / `tool_call.function.arguments`). -/
structure ToolCallFunction where
  name : String
  arguments : JStr
deriving DecidableEq

/-- A provider tool-call request (`tool_call.id`, `tool_call.function`). -/
structure ToolCall where
  id : String
  function : ToolCallFunction
deriving DecidableEq

/-- The assistant message of a provider choice: optional text content plus the
list of tool calls (`None` is embedded as the empty list, matching the
truthiness test `if assistant_message.tool_calls`). -/
structure AssistantMessage where
  content : Option String
  tool_calls : List ToolCall
deriving DecidableEq

/-- Token usage block of a provider response. -/
structure Usage where
  prompt_tokens : Nat
  completion_tokens : Nat
  total_tokens : Nat
deriving DecidableEq

/-- One provider choice (`response.choices[0]`). -/
structure Choice where
  message : AssistantMessage
  finish_reason : String

/-- A provider completion response. -/
structure Response where
  choices : List Choice
  usage : Usage
  model : String

/-- An entry of the message list sent to the provider.  `assistantRaw` is the
SDK message object appended verbatim at openai_services.py line 75; `tool`
carries the value whose `json.dumps` serialization Python stores as content. -/
inductive Msg where
  | system (content : String)
  | user (content : String)
  | assistant (content : String)
  | assistantRaw (m : AssistantMessage)
  | tool (tool_call_id : String) (name : String) (content : JVal)

/-- Whether a message is a tool-role message. -/
def Msg.isTool : Msg → Bool
  | .tool _ _ _ => true
  | _ => false

/-- A request issued to `client.chat.completions.create`.  The second-phase
call passes no `tools`/`tool_choice`, embedded as `none`. -/
structure Request where
  model : String
  messages : List Msg
  max_tokens : Nat
  temperature : ℚ
  tools : Option (List JVal)
  tool_choice : Option String

/-- The `tokens_used` sub-dict of the returned metadata. -/
structure TokensUsed where
  prompt : Nat
  completion : Nat
  total : Nat
deriving DecidableEq

/-- The normalized completion result dict returned by `get_completion`. -/
structure CompletionResult where
  message : Option String
  model : String
  tokens_used : TokensUsed
  finish_reason : String
  tools_used : List String
deriving DecidableEq

/-- The service object built by `OpenAIService.__init__`: the provider client
handle plus the fixed generation parameters copied from settings. -/
structure OpenAIService where
  client_api_key : String
  model : String
  max_tokens : Nat
  temperature : ℚ
deriving DecidableEq

/-- Embedding of `OpenAIService.__init__` (openai_services.py lines 13-17). -/
def OpenAIService.ofSettings (settings : Settings) : OpenAIService :=
  { client_api_key := settings.OPENAI_API_KEY,
    model := settings.OPENAI_MODEL,
    max_tokens := settings.MAX_TOKENS,
    temperature := settings.TEMPERATURE }

/-- Embedding of `OpenAIService._build_messages` (openai_services.py lines
19-38).  An absent history (`None`) and an empty one behave identically
(`if conversation_history:` is falsy for both). -/
def build_messages (settings : Settings) (user_message : String)
    (conversation_history : Option (List ConversationTurn)) : List Msg :=
  [Msg.system settings.SYSTEM_PROMPT]
    ++ (conversation_history.getD []).flatMap
        (fun conv => [Msg.user conv.user_message, Msg.assistant conv.assistant_message])
    ++ [Msg.user user_message]

/-- Embedding of the `for tool_call in assistant_message.tool_calls` loop
(openai_services.py lines 78-92).  Returns the message-list state after the
loop together with the exception that escaped it, if any: on an exception the
messages appended so far are retained in the list (and later discarded by the
caller), exactly as with Python's in-place `messages.append`. -/
def toolLoop (clock : Clock) : List ToolCall → List Msg → List Msg × Option String
  | [], messages => (messages, none)
  | tool_call :: rest, messages =>
    match json_loads tool_call.function.arguments with
    | .error e => (messages, some e)
    | .ok function_args =>
      match FUNCTION_MAP clock tool_call.function.name with
      | none => toolLoop clock rest messages
      | some f =>
        match f function_args with
        | .error e => (messages, some e)
        | .ok function_response =>
          toolLoop clock rest
            (messages ++ [Msg.tool tool_call.id tool_call.function.name function_response])

/-- The `except Exception` wrapper of `get_completion`
(openai_services.py lines 129-130). -/
def pyWrap (e : String) : String := "Erro ao comunicar com OpenAI: " ++ e

/-- Embedding of `OpenAIService.get_completion` (openai_services.py lines
40-130).  `prov` is the stubbed provider: the outcomes of successive
`create` calls, in call order.  Returns the outcome (result or wrapped
exception), the trace of requests actually issued, and the service object
after the call (the method never assigns to `self`, so it is returned
unchanged). -/
def get_completion (svc : OpenAIService) (clock : Clock) (settings : Settings)
    (prov : List (Except String Response)) (user_message : String)
    (conversation_history : Option (List ConversationTurn)) (use_tools : Bool) :
    (Except String CompletionResult × List Request) × OpenAIService :=
  let messages := build_messages settings user_message conversation_history
  let req1 : Request :=
    { model := svc.model, messages := messages, max_tokens := svc.max_tokens,
      temperature := svc.temperature,
      tools := if use_tools then some AVAILABLE_TOOLS else none,
      tool_choice := if use_tools then some "auto" else none }
  let core : Except String CompletionResult × List Request :=
    match prov with
    | [] => (.error (pyWrap "provider stub exhausted"), [req1])
    | .error e :: _ => (.error (pyWrap e), [req1])
    | .ok response :: prov1 =>
      match response.choices.head? with
      | none => (.error (pyWrap "list index out of range"), [req1])
      | some choice0 =>
        let assistant_message := choice0.message
        if assistant_message.tool_calls ≠ [] then
          let messages1 := messages ++ [Msg.assistantRaw assistant_message]
          match toolLoop clock assistant_message.tool_calls messages1 with
          | (_, some e) => (.error (pyWrap e), [req1])
          | (messages2, none) =>
            let req2 : Request :=
              { model := svc.model, messages := messages2, max_tokens := svc.max_tokens,
                temperature := svc.temperature, tools := none, tool_choice := none }
            match prov1 with
            | [] => (.error (pyWrap "provider stub exhausted"), [req1, req2])
            | .error e :: _ => (.error (pyWrap e), [req1, req2])
            | .ok second_response :: _ =>
              match second_response.choices.head? with
              | none => (.error (pyWrap "list index out of range"), [req1, req2])
              | some choice2 =>
                (.ok { message := choice2.message.content,
                       model := second_response.model,
                       tokens_used :=
                         { prompt := response.usage.prompt_tokens
                             + second_response.usage.prompt_tokens,
                           completion := response.usage.completion_tokens
                             + second_response.usage.completion_tokens,
                           total := response.usage.total_tokens
                             + second_response.usage.total_tokens },
                       finish_reason := choice2.finish_reason,
                       tools_used :=
                         assistant_message.tool_calls.map (fun tc => tc.function.name) },
                 [req1, req2])
        else
          (.ok { message := assistant_message.content,
                 model := response.model,
                 tokens_used :=
                   { prompt := response.usage.prompt_tokens,
                     completion := response.usage.completion_tokens,
                     total := response.usage.total_tokens },
                 finish_reason := choice0.finish_reason,
                 tools_used := [] },
           [req1])
  (core, svc)

/-- Delta payload of one streamed chunk (`chunk.choices[0].delta.content`). -/
structure StreamDelta where
  content : Option String

/-- One choice of a streamed chunk. -/
structure StreamChoice where
  delta : StreamDelta

/-- One streamed chunk. -/
structure StreamChunk where
  choices : List StreamChoice

/-- A stubbed streaming provider: `create_error` is a failure while opening
the stream; otherwise the provider emits `chunks` and then either ends
normally (`mid_error = none`) or raises (`mid_error = some e`). -/
structure StreamStub where
  create_error : Option String
  chunks : List StreamChunk
  mid_error : Option String

/-- Embedding of the `async for chunk in stream` loop of
`get_streaming_completion` under its `try`/`except` (openai_services.py lines
152-157): non-empty content fragments are yielded; an exception anywhere in
the loop (the provider raising mid-stream, or a chunk with no choices) is
caught and turned into one final `"[ERRO]: ..."` fragment, after which the
generator ends. -/
def stream_chunks_loop (mid_error : Option String) : List StreamChunk → List String
  | [] =>
    match mid_error with
    | none => []
    | some e => [s!"[ERRO]: {e}"]
  | chunk :: rest =>
    match chunk.choices.head? with
    | none => ["[ERRO]: list index out of range"]
    | some choice =>
      (match choice.delta.content with
       | some s => if s = "" then [] else [s]
       | none => []) ++ stream_chunks_loop mid_error rest

/-- Embedding of `OpenAIService.get_streaming_completion` (openai_services.py
lines 132-157).  The produced value is the full ordered sequence of yielded
fragments; the function is total, so the generator never raises past the
already-started stream. -/
def get_streaming_completion (settings : Settings) (stub : StreamStub)
    (user_message : String) (conversation_history : Option (List ConversationTurn)) :
    List String :=
  let _messages := build_messages settings user_message conversation_history
  match stub.create_error with
  | some e => [s!"[ERRO]: {e}"]
  | none => stream_chunks_loop stub.mid_error stub.chunks

/-- Dispatch of one tool call succeeds: its arguments parse as JSON, its name
is registered in `FUNCTION_MAP`, and the function returns a result. -/
def dispatchOk (clock : Clock) (tc : ToolCall) : Prop :=
  ∃ args f res, json_loads tc.function.arguments = .ok args
    ∧ FUNCTION_MAP clock tc.function.name = some f
    ∧ f args = .ok res

/-- The tool call parses but names no registered function, so the loop body's
`if function_name in FUNCTION_MAP` guard skips it. -/
def dispatchSkipped (clock : Clock) (tc : ToolCall) : Prop :=
  (∃ args, json_loads tc.function.arguments = .ok args)
    ∧ FUNCTION_MAP clock tc.function.name = none

/-- The result the loop body computes for one tool call, when parsing,
registry lookup and execution all go through. -/
def execTool (clock : Clock) (tc : ToolCall) : Option JVal :=
  match json_loads tc.function.arguments with
  | .error _ => none
  | .ok args =>
    match FUNCTION_MAP clock tc.function.name with
    | none => none
    | some f =>
      match f args with
      | .error _ => none
      | .ok res => some res

/-- The tool-role messages the loop appends for a list of tool calls, in call
order: one per call whose dispatch goes through, none for skipped calls. -/
def toolMsgs (clock : Clock) (tcs : List ToolCall) : List Msg :=
  tcs.filterMap fun tc => (execTool clock tc).map (Msg.tool tc.id tc.function.name)

/-- Concrete settings used by the closed witness and counterexample runs. -/
def fixture_settings : Settings := { OPENAI_API_KEY := "sk-test" }

/-- Concrete clock used by the closed witness and counterexample runs. -/
def fixture_clock : Clock := { mm_aaaa := "10/2025", month := 10, year := 2025 }

/-- Service object built from the fixture settings. -/
def fixture_svc : OpenAIService := OpenAIService.ofSettings fixture_settings

/-- A tool call naming a function absent from `FUNCTION_MAP`, with arguments
that parse fine. -/
def tc_unknown : ToolCall :=
  { id := "call_x",
    function := { name := "ferramenta_inexistente",
                  arguments := .valid (.obrigacoes none none) } }

/-- A well-formed tool call to `obter_obrigacoes_mes`. -/
def tc_obrig : ToolCall :=
  { id := "call_1",
    function := { name := "obter_obrigacoes_mes",
                  arguments := .valid (.obrigacoes (some 3) (some 2025)) } }

/-- A well-formed tool call to `verificar_tipo_regime_tributario`. -/
def tc_regime : ToolCall :=
  { id := "call_2",
    function := { name := "verificar_tipo_regime_tributario",
                  arguments := .valid (.regime 100000 "comercio") } }

/-- A tool call to a registered function whose arguments are not valid JSON. -/
def tc_malformed : ToolCall :=
  { id := "call_b",
    function := { name := "calcular_ferias",
                  arguments := .malformed "texto invalido" } }

/-- First-phase choice carrying only the unknown-tool call. -/
def choice_unknown : Choice :=
  { message := { content := none, tool_calls := [tc_unknown] },
    finish_reason := "tool_calls" }

/-- First-phase response carrying only the unknown-tool call. -/
def resp_unknown_tool : Response :=
  { choices := [choice_unknown],
    usage := { prompt_tokens := 20, completion_tokens := 9, total_tokens := 29 },
    model := "gpt-4o-mini" }

/-- First-phase choice carrying two well-formed tool calls. -/
def choice_two_tools : Choice :=
  { message := { content := none, tool_calls := [tc_obrig, tc_regime] },
    finish_reason := "tool_calls" }

/-- First-phase response carrying two well-formed tool calls. -/
def resp_two_tools : Response :=
  { choices := [choice_two_tools],
    usage := { prompt_tokens := 50, completion_tokens := 20, total_tokens := 70 },
    model := "gpt-4o-mini" }

/-- First-phase choice whose second tool call has malformed JSON arguments. -/
def choice_mixed : Choice :=
  { message := { content := none, tool_calls := [tc_obrig, tc_malformed] },
    finish_reason := "tool_calls" }

/-- First-phase response whose second tool call has malformed JSON arguments. -/
def resp_mixed : Response :=
  { choices := [choice_mixed],
    usage := { prompt_tokens := 40, completion_tokens := 15, total_tokens := 55 },
    model := "gpt-4o-mini" }

/-- Second-phase choice and response used after tool dispatch. -/
def choice_final : Choice :=
  { message := { content := some "Aqui está o resultado.", tool_calls := [] },
    finish_reason := "stop" }

/-- Second-phase response used after tool dispatch. -/
def resp_final : Response :=
  { choices := [choice_final],
    usage := { prompt_tokens := 33, completion_tokens := 11, total_tokens := 44 },
    model := "gpt-4o-mini" }

/-- Tool-free choice for the single-phase path. -/
def choice_plain : Choice :=
  { message := { content := some "Olá! Como posso ajudar?", tool_calls := [] },
    finish_reason := "stop" }

/-- Tool-free response for the single-phase path. -/
def resp_plain : Response :=
  { choices := [choice_plain],
    usage := { prompt_tokens := 12, completion_tokens := 7, total_tokens := 19 },
    model := "gpt-4o-mini" }

/-- Streaming stub: two text chunks delivered, then a provider failure. -/
def fixture_stream : StreamStub :=
  { create_error := none,
    chunks := [{ choices := [{ delta := { content := some "Olá" } }] },
               { choices := [{ delta := { content := some ", tudo bem?" } }] }],
    mid_error := some "connection reset" }

/-- A tool call to the registered `calcular_das_simples_nacional` whose
arguments are valid JSON and satisfy the declared schema, but on which the
tool body divides by the zero revenue and raises. -/
def tc_das_zero : ToolCall :=
  { id := "call_z",
    function := { name := "calcular_das_simples_nacional",
                  arguments := .valid (.das 0 1 none) } }

/-- First-phase choice carrying only the zero-revenue tool call. -/
def choice_das_zero : Choice :=
  { message := { content := none, tool_calls := [tc_das_zero] },
    finish_reason := "tool_calls" }

/-- First-phase response carrying only the zero-revenue tool call. -/
def resp_das_zero : Response :=
  { choices := [choice_das_zero],
    usage := { prompt_tokens := 25, completion_tokens := 10, total_tokens := 35 },
    model := "gpt-4o-mini" }

/-- When every tool call either dispatches or is skipped by the registry
guard, the loop finishes without an exception and appends exactly the
`toolMsgs` of the list, in order. -/
theorem toolLoop_append (clock : Clock) (tcs : List ToolCall)
    (h : ∀ tc ∈ tcs, dispatchOk clock tc ∨ dispatchSkipped clock tc) :
    ∀ msgs : List Msg, toolLoop clock tcs msgs = (msgs ++ toolMsgs clock tcs, none) := by
  induction tcs with
  | nil => intro msgs; simp [toolLoop, toolMsgs]
  | cons tc rest ih =>
    intro msgs
    have htc := h tc (List.mem_cons_self tc rest)
    have hrest : ∀ tc' ∈ rest, dispatchOk clock tc' ∨ dispatchSkipped clock tc' :=
      fun tc' h' => h tc' (List.mem_cons_of_mem tc h')
    rcases htc with ⟨args, f, res, hargs, hf, hres⟩ | ⟨⟨args, hargs⟩, hf⟩
    · simp [toolLoop, toolMsgs, execTool, hargs, hf, hres, ih hrest]
    · simp [toolLoop, toolMsgs, execTool, hargs, hf, ih hrest]

/-- Claim C5: the assembled message list is `[system] ++ (user,assistant)
pairs of the history in order ++ [user m]`, with length `1 + 2*len(H) + 1`,
system first and the current user message last; an absent history behaves as
an empty one. -/
theorem C5_build_messages (settings : Settings) (m : String)
    (H0 : Option (List ConversationTurn)) :
    (build_messages settings m H0).length = 1 + 2 * (H0.getD []).length + 1
    ∧ (build_messages settings m H0).head? = some (Msg.system settings.SYSTEM_PROMPT)
    ∧ (build_messages settings m H0).getLast? = some (Msg.user m)
    ∧ build_messages settings m H0
        = Msg.system settings.SYSTEM_PROMPT
            :: ((H0.getD []).flatMap fun t =>
                  [Msg.user t.user_message, Msg.assistant t.assistant_message])
            ++ [Msg.user m] := by
  refine ⟨?_, ?_, ?_, ?_⟩
  · simp only [build_messages]
    generalize H0.getD [] = l
    induction l with
    | nil => simp
    | cons t ts ih => simp at ih ⊢; omega
  · simp [build_messages]
  · have : build_messages settings m H0
        = (Msg.system settings.SYSTEM_PROMPT
            :: ((H0.getD []).flatMap fun conv =>
                  [Msg.user conv.user_message, Msg.assistant conv.assistant_message]))
          ++ [Msg.user m] := by
      simp [build_messages]
    rw [this, List.getLast?_concat]
  · simp [build_messages]

/-- When every tool call dispatches, the appended tool messages are exactly
one `Msg.tool` per call, in call order, carrying that call's id, name and
execution result. -/
theorem toolMsgs_of_ok (clock : Clock) (tcs : List ToolCall)
    (hok : ∀ tc ∈ tcs, dispatchOk clock tc) :
    toolMsgs clock tcs
      = tcs.map fun tc => Msg.tool tc.id tc.function.name ((execTool clock tc).getD JVal.null) := by
  induction tcs with
  | nil => simp [toolMsgs]
  | cons tc rest ih =>
    rcases hok tc (List.mem_cons_self tc rest) with ⟨args, f, res, hargs, hf, hres⟩
    have hexec : execTool clock tc = some res := by simp [execTool, hargs, hf, hres]
    have := ih fun tc' h' => hok tc' (List.mem_cons_of_mem tc h')
    simp [toolMsgs, hexec, this]
    simp [toolMsgs] at this
    exact this

/-- Claim C2: on a first response carrying `k ≥ 1` tool calls that all parse
and dispatch, the orchestrator issues exactly two provider calls; the second
call's message list is the assembled list plus the raw assistant message plus
exactly `k` tool-role messages in call order, each carrying the matching
`tool_call_id`, name and tool result; and the returned result takes its
message and finish_reason from the second response, sums both usages
element-wise, and lists the `k` invoked tool names in call order. -/
theorem C2_tool_round_trip (svc : OpenAIService) (clock : Clock) (settings : Settings)
    (rest : List (Except String Response)) (m : String)
    (hist : Option (List ConversationTurn)) (use_tools : Bool)
    (r1 r2 : Response) (c1 c2 : Choice)
    (h1 : r1.choices.head? = some c1)
    (h2 : r2.choices.head? = some c2)
    (hne : c1.message.tool_calls ≠ [])
    (hok : ∀ tc ∈ c1.message.tool_calls, dispatchOk clock tc) :
    (get_completion svc clock settings (.ok r1 :: .ok r2 :: rest) m hist use_tools).1.1
      = .ok { message := c2.message.content, model := r2.model,
              tokens_used := { prompt := r1.usage.prompt_tokens + r2.usage.prompt_tokens,
                               completion := r1.usage.completion_tokens + r2.usage.completion_tokens,
                               total := r1.usage.total_tokens + r2.usage.total_tokens },
              finish_reason := c2.finish_reason,
              tools_used := c1.message.tool_calls.map fun tc => tc.function.name }
    ∧ (get_completion svc clock settings (.ok r1 :: .ok r2 :: rest) m hist use_tools).1.2.map
        Request.messages
      = [build_messages settings m hist,
         build_messages settings m hist ++ [Msg.assistantRaw c1.message]
           ++ toolMsgs clock c1.message.tool_calls]
    ∧ toolMsgs clock c1.message.tool_calls
        = c1.message.tool_calls.map
            (fun tc => Msg.tool tc.id tc.function.name ((execTool clock tc).getD JVal.null))
    ∧ (toolMsgs clock c1.message.tool_calls).length = c1.message.tool_calls.length
    ∧ (c1.message.tool_calls.map fun tc => tc.function.name).length
        = c1.message.tool_calls.length := by
  have hloop := toolLoop_append clock c1.message.tool_calls
    (fun tc h => Or.inl (hok tc h))
    (build_messages settings m hist ++ [Msg.assistantRaw c1.message])
  have hmap := toolMsgs_of_ok clock c1.message.tool_calls hok
  refine ⟨?_, ?_, hmap, ?_, by simp⟩
  · simp [get_completion, h1, h2, hne, hloop]
  · simp [get_completion, h1, h2, hne, hloop]
  · rw [hmap]; simp

/-- Claim C4: on a first response with no tool calls, the orchestrator issues
exactly one provider call and returns a result built from that single
response alone: its content, model and finish_reason, its exact usage as
`tokens_used`, and an empty `tools_used`. -/
theorem C4_no_tool_calls (svc : OpenAIService) (clock : Clock) (settings : Settings)
    (rest : List (Except String Response)) (m : String)
    (hist : Option (List ConversationTurn)) (use_tools : Bool)
    (r : Response) (c : Choice)
    (hc : r.choices.head? = some c)
    (hnt : c.message.tool_calls = []) :
    (get_completion svc clock settings (.ok r :: rest) m hist use_tools).1.1
      = .ok { message := c.message.content, model := r.model,
              tokens_used := { prompt := r.usage.prompt_tokens,
                               completion := r.usage.completion_tokens,
                               total := r.usage.total_tokens },
              finish_reason := c.finish_reason, tools_used := [] }
    ∧ (get_completion svc clock settings (.ok r :: rest) m hist use_tools).1.2.length = 1 := by
  simp [get_completion, hc, hnt]

/-- Claim C9: with a fixed provider stub and fixed input and `use_tools =
False`, two consecutive runs of `get_completion` (threading the service
object through) produce identical outcomes, and the service object is
returned unchanged by each run: the method holds no hidden mutable state. -/
theorem C9_two_runs_identical (svc : OpenAIService) (clock : Clock) (settings : Settings)
    (prov : List (Except String Response)) (m : String)
    (hist : Option (List ConversationTurn)) :
    (get_completion (get_completion svc clock settings prov m hist false).2
        clock settings prov m hist false).1
      = (get_completion svc clock settings prov m hist false).1
    ∧ (get_completion svc clock settings prov m hist false).2 = svc :=
  ⟨rfl, rfl⟩

/-- A skipped (and a fortiori a malformed) tool call contributes no tool
message, so the appended messages are strictly fewer than the calls. -/
theorem toolMsgs_length_lt (clock : Clock) (tcs : List ToolCall)
    (h : ∃ tc ∈ tcs, execTool clock tc = none) :
    (toolMsgs clock tcs).length < tcs.length := by
  induction tcs with
  | nil => simp at h
  | cons tc rest ih =>
    rcases h with ⟨tc', hmem, hnone⟩
    rcases List.mem_cons.mp hmem with heq | hmem'
    · subst heq
      simp only [toolMsgs, List.filterMap_cons, hnone, Option.map_none', List.length_cons]
      exact Nat.lt_succ_of_le (List.length_filterMap_le _ _)
    · have hlt := ih ⟨tc', hmem', hnone⟩
      cases hexec : execTool clock tc with
      | none =>
        simp only [toolMsgs, List.filterMap_cons, hexec, Option.map_none', List.length_cons]
        exact Nat.lt_succ_of_lt (by simpa [toolMsgs] using hlt)
      | some v =>
        simp only [toolMsgs, List.filterMap_cons, hexec, Option.map_some', List.length_cons]
        exact Nat.succ_lt_succ (by simpa [toolMsgs] using hlt)

/-- A tool call whose name is unregistered produces no result value. -/
theorem execTool_none_of_unregistered (clock : Clock) (tc : ToolCall)
    (h : FUNCTION_MAP clock tc.function.name = none) : execTool clock tc = none := by
  cases harg : json_loads tc.function.arguments with
  | error e => simp [execTool, harg]
  | ok args => simp [execTool, harg, h]

/-- Claim C1, counterexample: a first-phase response requesting the
unregistered tool `"ferramenta_inexistente"` does not make `get_completion`
fail and does not suppress the second provider call — the run returns a
normal result, issues two requests, silently appends no tool message for the
unknown call, and even lists the unknown name in `tools_used`. -/
theorem C1_counterexample :
    (get_completion fixture_svc fixture_clock fixture_settings
        [.ok resp_unknown_tool, .ok resp_final] "Oi" none true).1.1
      = .ok { message := some "Aqui está o resultado.",
              model := "gpt-4o-mini",
              tokens_used := { prompt := 53, completion := 20, total := 73 },
              finish_reason := "stop", tools_used := ["ferramenta_inexistente"] }
    ∧ (get_completion fixture_svc fixture_clock fixture_settings
        [.ok resp_unknown_tool, .ok resp_final] "Oi" none true).1.2.length = 2
    ∧ ((get_completion fixture_svc fixture_clock fixture_settings
        [.ok resp_unknown_tool, .ok resp_final] "Oi" none true).1.2.map
          fun rq => rq.messages.countP Msg.isTool) = [0, 0] :=
  ⟨rfl, rfl, rfl⟩

/-- Claim C1 as amended: when a first-phase response carries tool calls of
which at least one names an unregistered function (the rest dispatching
normally), `get_completion` does not fail: the unknown calls are silently
skipped — strictly fewer tool messages than calls are appended — the second
provider call is still issued, and `tools_used` still lists every requested
name, the unknown one included. -/
theorem C1_unknown_tool_skipped (svc : OpenAIService) (clock : Clock) (settings : Settings)
    (rest : List (Except String Response)) (m : String)
    (hist : Option (List ConversationTurn)) (use_tools : Bool)
    (r1 r2 : Response) (c1 c2 : Choice)
    (h1 : r1.choices.head? = some c1)
    (h2 : r2.choices.head? = some c2)
    (hne : c1.message.tool_calls ≠ [])
    (hmix : ∀ tc ∈ c1.message.tool_calls, dispatchOk clock tc ∨ dispatchSkipped clock tc)
    (hunk : ∃ tc ∈ c1.message.tool_calls, FUNCTION_MAP clock tc.function.name = none) :
    (get_completion svc clock settings (.ok r1 :: .ok r2 :: rest) m hist use_tools).1.1
      = .ok { message := c2.message.content, model := r2.model,
              tokens_used := { prompt := r1.usage.prompt_tokens + r2.usage.prompt_tokens,
                               completion := r1.usage.completion_tokens + r2.usage.completion_tokens,
                               total := r1.usage.total_tokens + r2.usage.total_tokens },
              finish_reason := c2.finish_reason,
              tools_used := c1.message.tool_calls.map fun tc => tc.function.name }
    ∧ (get_completion svc clock settings (.ok r1 :: .ok r2 :: rest) m hist use_tools).1.2.map
        Request.messages
      = [build_messages settings m hist,
         build_messages settings m hist ++ [Msg.assistantRaw c1.message]
           ++ toolMsgs clock c1.message.tool_calls]
    ∧ (toolMsgs clock c1.message.tool_calls).length < c1.message.tool_calls.length := by
  have hloop := toolLoop_append clock c1.message.tool_calls hmix
    (build_messages settings m hist ++ [Msg.assistantRaw c1.message])
  rcases hunk with ⟨tc, hmem, hnone⟩
  refine ⟨?_, ?_,
    toolMsgs_length_lt clock _ ⟨tc, hmem, execTool_none_of_unregistered clock tc hnone⟩⟩
  · simp [get_completion, h1, h2, hne, hloop]
  · simp [get_completion, h1, h2, hne, hloop]

/-- Witness for C1's amended theorem at the concrete unknown-tool fixture. -/
theorem C1_witness :
    (get_completion fixture_svc fixture_clock fixture_settings
        [.ok resp_unknown_tool, .ok resp_final] "Oi" none true).1.1
      = .ok { message := some "Aqui está o resultado.",
              model := "gpt-4o-mini",
              tokens_used := { prompt := 53, completion := 20, total := 73 },
              finish_reason := "stop", tools_used := ["ferramenta_inexistente"] }
    ∧ (get_completion fixture_svc fixture_clock fixture_settings
        [.ok resp_unknown_tool, .ok resp_final] "Oi" none true).1.2.map
        Request.messages
      = [build_messages fixture_settings "Oi" none,
         build_messages fixture_settings "Oi" none
           ++ [Msg.assistantRaw choice_unknown.message]
           ++ toolMsgs fixture_clock [tc_unknown]]
    ∧ (toolMsgs fixture_clock [tc_unknown]).length < 1 :=
  C1_unknown_tool_skipped fixture_svc fixture_clock fixture_settings [] "Oi" none true
    resp_unknown_tool resp_final choice_unknown choice_final rfl rfl (by decide)
    (by
      intro tc h
      have h' : tc = tc_unknown := List.mem_singleton.mp h
      subst h'
      exact Or.inr ⟨⟨_, rfl⟩, rfl⟩)
    ⟨tc_unknown, by decide, rfl⟩

/-- Witness for C2 at a concrete two-tool-call fixture. -/
theorem C2_witness :
    (get_completion fixture_svc fixture_clock fixture_settings
        [.ok resp_two_tools, .ok resp_final] "Oi" none true).1.1
      = .ok { message := some "Aqui está o resultado.", model := "gpt-4o-mini",
              tokens_used := { prompt := 83, completion := 31, total := 114 },
              finish_reason := "stop",
              tools_used := ["obter_obrigacoes_mes", "verificar_tipo_regime_tributario"] }
    ∧ (get_completion fixture_svc fixture_clock fixture_settings
        [.ok resp_two_tools, .ok resp_final] "Oi" none true).1.2.map
        Request.messages
      = [build_messages fixture_settings "Oi" none,
         build_messages fixture_settings "Oi" none
           ++ [Msg.assistantRaw choice_two_tools.message]
           ++ toolMsgs fixture_clock [tc_obrig, tc_regime]]
    ∧ toolMsgs fixture_clock [tc_obrig, tc_regime]
        = [tc_obrig, tc_regime].map
            (fun tc => Msg.tool tc.id tc.function.name
              ((execTool fixture_clock tc).getD JVal.null))
    ∧ (toolMsgs fixture_clock [tc_obrig, tc_regime]).length = 2
    ∧ (([tc_obrig, tc_regime] : List ToolCall).map fun tc => tc.function.name).length = 2 :=
  C2_tool_round_trip fixture_svc fixture_clock fixture_settings [] "Oi" none true
    resp_two_tools resp_final choice_two_tools choice_final rfl rfl (by decide)
    (by
      intro tc h
      have h' : tc = tc_obrig ∨ tc = tc_regime := by
        have hm : tc ∈ [tc_obrig, tc_regime] := h
        simpa using hm
      rcases h' with rfl | rfl
      · exact ⟨_, _, _, rfl, rfl, rfl⟩
      · exact ⟨_, _, _, rfl, rfl, rfl⟩)

/-- The loop over `pre ++ bad :: rest`, where every call of `pre` dispatches
or is skipped and `bad` has malformed JSON arguments, executes all of `pre`
(appending its tool messages) and then escapes with the JSON decode error;
nothing at or after `bad` is executed. -/
theorem toolLoop_malformed (clock : Clock) (pre : List ToolCall) (bad : ToolCall)
    (rest : List ToolCall) (raw : String)
    (hpre : ∀ tc ∈ pre, dispatchOk clock tc ∨ dispatchSkipped clock tc)
    (hbad : bad.function.arguments = .malformed raw) :
    ∀ msgs, toolLoop clock (pre ++ bad :: rest) msgs
      = (msgs ++ toolMsgs clock pre, some (json_decode_error raw)) := by
  induction pre with
  | nil =>
    intro msgs
    simp [toolLoop, hbad, json_loads, toolMsgs]
  | cons tc pre' ih =>
    intro msgs
    have hrest : ∀ tc' ∈ pre', dispatchOk clock tc' ∨ dispatchSkipped clock tc' :=
      fun tc' h' => hpre tc' (List.mem_cons_of_mem tc h')
    rcases hpre tc (List.mem_cons_self tc pre') with ⟨args, f, res, hargs, hf, hres⟩
      | ⟨⟨args, hargs⟩, hf⟩
    · simp [toolLoop, toolMsgs, execTool, hargs, hf, hres, ih hrest]
    · simp [toolLoop, toolMsgs, execTool, hargs, hf, ih hrest]

/-- Claim C3, counterexample: on a response whose first tool call is valid
and whose second has malformed JSON arguments, `get_completion` does fail —
but only after the first tool was executed and its tool message appended, so
"no tool is executed before the failure" is false for this response. -/
theorem C3_counterexample :
    (get_completion fixture_svc fixture_clock fixture_settings
        [.ok resp_mixed] "Oi" none true).1.1
      = .error (pyWrap (json_decode_error "texto invalido"))
    ∧ (get_completion fixture_svc fixture_clock fixture_settings
        [.ok resp_mixed] "Oi" none true).1.2.length = 1
    ∧ ((toolLoop fixture_clock [tc_obrig, tc_malformed] []).1.countP Msg.isTool) = 1
    ∧ (toolLoop fixture_clock [tc_obrig, tc_malformed] []).2
        = some (json_decode_error "texto invalido") :=
  ⟨rfl, rfl, rfl, rfl⟩

/-- Claim C3 as amended: a malformed-arguments tool call makes
`get_completion` fail with the wrapped JSON decode error, with no
CompletionResult and no second provider call; however, tool calls preceding
the first malformed one are executed and their tool messages appended to the
loop state before the exception escapes (the work is then discarded). -/
theorem C3_malformed_arguments (svc : OpenAIService) (clock : Clock) (settings : Settings)
    (provrest : List (Except String Response)) (m : String)
    (hist : Option (List ConversationTurn)) (use_tools : Bool)
    (r1 : Response) (c1 : Choice) (pre : List ToolCall) (bad : ToolCall)
    (rest : List ToolCall) (raw : String)
    (h1 : r1.choices.head? = some c1)
    (hsplit : c1.message.tool_calls = pre ++ bad :: rest)
    (hpre : ∀ tc ∈ pre, dispatchOk clock tc ∨ dispatchSkipped clock tc)
    (hbad : bad.function.arguments = .malformed raw) :
    (get_completion svc clock settings (.ok r1 :: provrest) m hist use_tools).1.1
      = .error (pyWrap (json_decode_error raw))
    ∧ (get_completion svc clock settings (.ok r1 :: provrest) m hist use_tools).1.2.length = 1
    ∧ toolLoop clock c1.message.tool_calls
        (build_messages settings m hist ++ [Msg.assistantRaw c1.message])
      = (build_messages settings m hist ++ [Msg.assistantRaw c1.message] ++ toolMsgs clock pre,
         some (json_decode_error raw)) := by
  have hloop := toolLoop_malformed clock pre bad rest raw hpre hbad
  have hne : c1.message.tool_calls ≠ [] := by simp [hsplit]
  refine ⟨?_, ?_, ?_⟩
  · simp [get_completion, h1, hne, hsplit, hloop]
  · simp [get_completion, h1, hne, hsplit, hloop]
  · rw [hsplit]; exact hloop _

/-- Witness for C3's amended theorem at the concrete mixed fixture. -/
theorem C3_witness :
    (get_completion fixture_svc fixture_clock fixture_settings
        [.ok resp_mixed] "Oi" none true).1.1
      = .error (pyWrap (json_decode_error "texto invalido"))
    ∧ (get_completion fixture_svc fixture_clock fixture_settings
        [.ok resp_mixed] "Oi" none true).1.2.length = 1
    ∧ toolLoop fixture_clock choice_mixed.message.tool_calls
        (build_messages fixture_settings "Oi" none ++ [Msg.assistantRaw choice_mixed.message])
      = (build_messages fixture_settings "Oi" none ++ [Msg.assistantRaw choice_mixed.message]
           ++ toolMsgs fixture_clock [tc_obrig],
         some (json_decode_error "texto invalido")) :=
  C3_malformed_arguments fixture_svc fixture_clock fixture_settings [] "Oi" none true
    resp_mixed choice_mixed [tc_obrig] tc_malformed [] "texto invalido" rfl rfl
    (by
      intro tc h
      have h' : tc = tc_obrig := List.mem_singleton.mp h
      subst h'
      exact Or.inl ⟨_, _, _, rfl, rfl, rfl⟩)
    rfl

/-- Witness for C4 at a concrete tool-free fixture. -/
theorem C4_witness :
    (get_completion fixture_svc fixture_clock fixture_settings
        [.ok resp_plain] "Oi" none true).1.1
      = .ok { message := some "Olá! Como posso ajudar?", model := "gpt-4o-mini",
              tokens_used := { prompt := 12, completion := 7, total := 19 },
              finish_reason := "stop", tools_used := [] }
    ∧ (get_completion fixture_svc fixture_clock fixture_settings
        [.ok resp_plain] "Oi" none true).1.2.length = 1 :=
  C4_no_tool_calls fixture_svc fixture_clock fixture_settings [] "Oi" none true
    resp_plain choice_plain rfl rfl

/-- Pushing a mid-stream provider error through the chunk loop appends
exactly one final error-marker fragment after the normally yielded ones. -/
theorem stream_loop_error (e : String) (chunks : List StreamChunk)
    (hwf : ∀ ch ∈ chunks, ch.choices ≠ []) :
    stream_chunks_loop (some e) chunks
      = stream_chunks_loop none chunks ++ [s!"[ERRO]: {e}"] := by
  induction chunks with
  | nil => simp [stream_chunks_loop]
  | cons ch rest ih =>
    have hne := hwf ch (List.mem_cons_self ch rest)
    obtain ⟨c, cs, hch⟩ : ∃ c cs, ch.choices = c :: cs := by
      cases hcc : ch.choices with
      | nil => exact absurd hcc hne
      | cons c cs => exact ⟨c, cs, rfl⟩
    have hrest := ih (fun ch' h' => hwf ch' (List.mem_cons_of_mem ch h'))
    simp [stream_chunks_loop, hch, hrest]

/-- Claim C6: when the provider fails mid-stream after delivering any number
of (well-formed) chunks, `get_streaming_completion` yields the normal
fragments followed by exactly one final `"[ERRO]: ..."` fragment and then
ends the sequence; being a total function of the stub, it never raises past
the already-started stream. -/
theorem C6_stream_mid_failure (settings : Settings) (stub : StreamStub) (m : String)
    (hist : Option (List ConversationTurn)) (e : String)
    (hcreate : stub.create_error = none)
    (hmid : stub.mid_error = some e)
    (hwf : ∀ ch ∈ stub.chunks, ch.choices ≠ []) :
    get_streaming_completion settings stub m hist
      = stream_chunks_loop none stub.chunks ++ [s!"[ERRO]: {e}"]
    ∧ (get_streaming_completion settings stub m hist).getLast? = some s!"[ERRO]: {e}" := by
  have h := stream_loop_error e stub.chunks hwf
  constructor
  · simp [get_streaming_completion, hcreate, hmid, h]
  · simp [get_streaming_completion, hcreate, hmid, h, List.getLast?_concat]

/-- Witness for C6 at a concrete two-chunk stream that then fails. -/
theorem C6_witness :
    get_streaming_completion fixture_settings fixture_stream "Oi" none
      = stream_chunks_loop none fixture_stream.chunks ++ ["[ERRO]: connection reset"]
    ∧ (get_streaming_completion fixture_settings fixture_stream "Oi" none).getLast?
      = some "[ERRO]: connection reset" :=
  C6_stream_mid_failure fixture_settings fixture_stream "Oi" none "connection reset"
    rfl rfl (by simp [fixture_stream])

/-- Claim C7: out-of-domain inputs to the tools are answered with an ordinary
dict carrying an `"erro"` key, never an exception: an annex outside 1..5 or a
twelve-month revenue above 4 800 000 for `calcular_das_simples_nacional`, a
month outside 1..12 for `obter_obrigacoes_mes` (month 13 in particular), and
a vacation-day count outside 1..30 for `calcular_ferias`. -/
theorem C7_domain_errors :
    (∀ (clock : Clock) (receita : ℚ) (anexo : Int) (mref : Option String),
       ((anexo < 1 ∨ 5 < anexo) ∨ 4800000 < receita) →
       ∃ v, calcular_das_simples_nacional clock receita anexo mref = .ok v
         ∧ (jLookup v "erro").isSome)
    ∧ (∀ (clock : Clock) (mes : Int) (ano : Option Int), (mes < 1 ∨ 12 < mes) →
        (jLookup (obter_obrigacoes_mes clock (some mes) ano) "erro").isSome)
    ∧ (∀ (salario : ℚ) (dias : Int) (vende : Bool), (dias < 1 ∨ 30 < dias) →
        (jLookup (calcular_ferias salario dias vende) "erro").isSome)
    ∧ (∀ (clock : Clock) (ano : Option Int),
        (jLookup (obter_obrigacoes_mes clock (some 13) ano) "erro").isSome) := by
  have hmes : ∀ (clock : Clock) (mes : Int) (ano : Option Int), (mes < 1 ∨ 12 < mes) →
      (jLookup (obter_obrigacoes_mes clock (some mes) ano) "erro").isSome := by
    intro clock mes ano h
    have h' : (mes < 1 ∨ mes > 12) := h
    simp only [obter_obrigacoes_mes, Option.getD_some, if_pos h']
    simp [jLookup]
  refine ⟨?_, hmes, ?_, fun clock ano => hmes clock 13 ano (by omega)⟩
  · intro clock receita anexo mref h
    rcases h with hanexo | hreceita
    · have h1 : anexo ≠ 1 := by omega
      have h2 : anexo ≠ 2 := by omega
      have h3 : anexo ≠ 3 := by omega
      have h4 : anexo ≠ 4 := by omega
      have h5 : anexo ≠ 5 := by omega
      have htab : tabelas anexo = none := by simp [tabelas, h1, h2, h3, h4, h5]
      simp only [calcular_das_simples_nacional, htab]
      exact ⟨_, rfl, by simp [jLookup]⟩
    · cases htab : tabelas anexo with
      | none =>
        simp only [calcular_das_simples_nacional, htab]
        exact ⟨_, rfl, by simp [jLookup]⟩
      | some t =>
        simp only [calcular_das_simples_nacional, htab]
        rw [if_pos hreceita]
        exact ⟨_, rfl, by simp [jLookup]⟩
  · intro salario dias vende h
    have h' : (dias < 1 ∨ dias > 30) := h
    simp only [calcular_ferias, if_pos h']
    simp [jLookup]

/-- Witness for C7 at concrete out-of-domain inputs (annex 7, month 13,
45 vacation days). -/
theorem C7_witness :
    (∃ v, calcular_das_simples_nacional fixture_clock 100000 7 none = .ok v
       ∧ (jLookup v "erro").isSome)
    ∧ (jLookup (obter_obrigacoes_mes fixture_clock (some 13) (some 2025)) "erro").isSome
    ∧ (jLookup (calcular_ferias 3000 45 false) "erro").isSome :=
  ⟨C7_domain_errors.1 fixture_clock 100000 7 none (Or.inl (Or.inr (by norm_num))),
   C7_domain_errors.2.1 fixture_clock 13 (some 2025) (Or.inr (by norm_num)),
   C7_domain_errors.2.2.1 3000 45 false (Or.inr (by norm_num))⟩

/-- Claim C8: for a twelve-month revenue of 200 000 under annex 1, the bracket
search selects the second bracket (upper bound 360 000, rate 7.3, deduction
5 940); the result reports `aliquota_nominal` `"7.3%"`, `valor_deducao`
`"R$ 5,940.00"` and `aliquota_efetiva` `"4.33%"`, and the effective rate
`(200000*7.3/100 - 5940)/200000*100` is strictly below 7.3. -/
theorem C8_das_anexo1_200000 (clock : Clock) :
    (tabelas 1).map (fun t => t.faixas.find? fun f => (200000 : ℚ) ≤ f.ate)
      = some (some ⟨360000, 7.3, 5940⟩)
    ∧ ((200000 * (7.3 : ℚ) / 100 - 5940) / 200000 * 100) < 7.3
    ∧ ∃ v, calcular_das_simples_nacional clock 200000 1 none = Except.ok v
        ∧ jLookup v "aliquota_nominal" = some (.str "7.3%")
        ∧ jLookup v "valor_deducao" = some (.str "R$ 5,940.00")
        ∧ jLookup v "aliquota_efetiva" = some (.str "4.33%") := by
  refine ⟨by with_unfolding_all rfl, by norm_num, _, by with_unfolding_all rfl,
          by with_unfolding_all rfl, by with_unfolding_all rfl, by with_unfolding_all rfl⟩

/-- Claim C10: for any month 1..12 and any year, `obter_obrigacoes_mes`
returns a dict without `"erro"` whose `total_obrigacoes` equals the length of
its `obrigacoes` list, whose `mes_nome` is the month's Portuguese name from
the fixed list; the list begins with the six fixed monthly obligations in
declared order, and totals 7 entries for months 1..5 and 6 for months 6..12. -/
theorem C10_obrigacoes_valid_month (clock : Clock) (mes ano : Int)
    (hlo : 1 ≤ mes) (hhi : mes ≤ 12) :
    ∃ obs : List JVal,
      jLookup (obter_obrigacoes_mes clock (some mes) (some ano)) "erro" = none
      ∧ jLookup (obter_obrigacoes_mes clock (some mes) (some ano)) "obrigacoes"
          = some (.arr obs)
      ∧ jLookup (obter_obrigacoes_mes clock (some mes) (some ano)) "total_obrigacoes"
          = some (.num obs.length)
      ∧ jLookup (obter_obrigacoes_mes clock (some mes) (some ano)) "mes_nome"
          = some (.str (meses_nome.getD (mes - 1).toNat ""))
      ∧ obs.take 6 = obrigacoes_mensais
      ∧ (mes ≤ 5 → obs.length = 7)
      ∧ (6 ≤ mes → obs.length = 6) := by
  interval_cases mes <;>
    exact ⟨_, by with_unfolding_all rfl, by with_unfolding_all rfl, by with_unfolding_all rfl,
           by with_unfolding_all rfl, by with_unfolding_all rfl,
           by first | exact fun _ => by with_unfolding_all rfl | omega,
           by first | exact fun _ => by with_unfolding_all rfl | omega⟩

/-- Witness for C10 at month 3 of year 2025: seven obligations, starting with
the six monthly ones, with `mes_nome` `"Março"`. -/
theorem C10_witness :
    ∃ obs : List JVal,
      jLookup (obter_obrigacoes_mes fixture_clock (some 3) (some 2025)) "erro" = none
      ∧ jLookup (obter_obrigacoes_mes fixture_clock (some 3) (some 2025)) "obrigacoes"
          = some (.arr obs)
      ∧ jLookup (obter_obrigacoes_mes fixture_clock (some 3) (some 2025)) "total_obrigacoes"
          = some (.num obs.length)
      ∧ jLookup (obter_obrigacoes_mes fixture_clock (some 3) (some 2025)) "mes_nome"
          = some (.str "Março")
      ∧ obs.take 6 = obrigacoes_mensais
      ∧ ((3 : Int) ≤ 5 → obs.length = 7)
      ∧ ((6 : Int) ≤ 3 → obs.length = 6) :=
  C10_obrigacoes_valid_month fixture_clock 3 2025 (by norm_num) (by norm_num)

/-- Claim C2, counterexample: a response whose single tool call names the
registered `calcular_das_simples_nacional` with valid-JSON, schema-satisfying
arguments (`receita_bruta_12_meses = 0`, `anexo = 1`) does not produce the
claimed tool round-trip: the tool body raises on the division by the zero
revenue, the exception is caught by the generic wrapper, the completion fails
with no CompletionResult, no tool message survives and no second provider
call is issued. -/
theorem C2_counterexample :
    (get_completion fixture_svc fixture_clock fixture_settings
        [.ok resp_das_zero, .ok resp_final] "Oi" none true).1.1
      = .error (pyWrap "float division by zero")
    ∧ (get_completion fixture_svc fixture_clock fixture_settings
        [.ok resp_das_zero, .ok resp_final] "Oi" none true).1.2.length = 1
    ∧ (toolLoop fixture_clock [tc_das_zero] []).2 = some "float division by zero" := by
  refine ⟨by with_unfolding_all rfl, by with_unfolding_all rfl, by with_unfolding_all rfl⟩
